import Mathlib

/-!
Shallow embedding of the drorm-cli migration compiler.

Source files embedded here:
- drorm-cli/src/declaration.rs : the Migration record and the Operation
  tagged variant (serde-derived serialization attributes included).
- drorm-cli/src/migrate/sql_builder.rs : migration_to_sql, the compiler
  that turns one migration into a single transaction through the
  backend capability interface of the external rorm_sql crate.

The rorm_sql crate itself is an external collaborator: its builder types
are opaque here, so the compiler is embedded generically over a record of
backend capabilities (DBImpl), mirroring the calls the source makes.
-/

namespace Drorm

/-- Semantic database column type. External type rorm_sql::imr::DbType;
its internal structure is irrelevant to the compiler, which only clones
and forwards it, so it is modelled as an opaque tag. -/
structure DbType where
  code : String
deriving DecidableEq, Repr

/-- Column annotation. External type from rorm_sql::imr (nullable, unique,
primary key, ...); opaque to the compiler, modelled as an opaque tag. -/
structure Annot where
  code : String
deriving DecidableEq, Repr

/-- Column descriptor. External type rorm_sql::imr::Field; the compiler
reads exactly the three components it forwards to create_column. -/
structure Field where
  name : String
  db_type : DbType
  annotations : List Annot
deriving DecidableEq, Repr

/-- The representation for all possible database operations
(declaration.rs, enum Operation, serde tag "Type"). -/
inductive Operation where
  | CreateModel (name : String) (fields : List Field)
  | RenameModel (old : String) (new : String)
  | DeleteModel (name : String)
  | CreateField (model : String) (field : Field)
  | RenameField (table_name : String) (old : String) (new : String)
  | DeleteField (model : String) (name : String)
deriving DecidableEq, Repr

/-- Representation for a migration (declaration.rs, struct Migration).
The id field carries the serde skip attribute: it is derived from the
filename, never from the document. -/
structure Migration where
  hash : String
  initial : Bool
  id : String
  dependency : String
  replaces : List String
  operations : List Operation
deriving DecidableEq, Repr

/-- The alter-table operations of rorm_sql used by the compiler
(rorm_sql::alter_table::SQLAlterTableOperation), parametric in the
dialect's column specification type. -/
inductive SQLAlterTableOperation (Col : Type) where
  | RenameTo (name : String)
  | AddColumn (operation : Col)
  | RenameColumnTo (column_name : String) (new_column_name : String)
  | DropColumn (name : String)
deriving DecidableEq, Repr

/-- Which call site of migration_to_sql wrapped an error: each of the six
with_context calls in the operation match plus the final finish call uses
a fixed format template, distinguished here by this tag. -/
inductive CtxKind where
  | createTable
  | renameTable
  | dropTable
  | addColumn
  | renameFieldStmt
  | dropColumn
  | finishTransaction
deriving DecidableEq, Repr

/-- The error produced by migration_to_sql: an underlying dialect error
(opaque cause) wrapped by with_context with a fixed message template per
call site, whose only runtime argument is the migration id. -/
structure CompileErr where
  kind : CtxKind
  migrationId : String
  cause : String
deriving DecidableEq, Repr

/-- Model of with_context followed by the question-mark operator: a
success passes through, a failure is wrapped with the call site's
template tag and the migration id. -/
def wrapErr {α : Type} (k : CtxKind) (migId : String) :
    Except String α → Except CompileErr α
  | .ok a => .ok a
  | .error cause => .error ⟨k, migId, cause⟩

/-- Backend capability interface: the exact set of calls migration_to_sql
makes into the external rorm_sql crate (DBImpl and the builders it
returns). Builder and statement types are opaque type parameters; build
and finish are the fallible calls. -/
structure DBImpl (Col TB AB DT Txn Stmt Script : Type) where
  start_transaction : Txn
  create_table : String → TB
  create_column : String → String → DbType → List Annot → Col
  add_column : TB → Col → TB
  build_create_table : TB → Except String Stmt
  alter_table : String → SQLAlterTableOperation Col → AB
  build_alter_table : AB → Except String Stmt
  drop_table : String → DT
  build_drop_table : DT → Except String Stmt
  add_statement : Txn → Stmt → Txn
  finish : Txn → Except String Script

variable {Col TB AB DT Txn Stmt Script : Type}

/-- One arm of the match in migration_to_sql (sql_builder.rs lines
17-128): the statement built for a single operation, with the source's
with_context wrapping. The CreateModel arm folds add_column over the
fields in list order, exactly as the source's for loop does. -/
def compileOp (db_impl : DBImpl Col TB AB DT Txn Stmt Script)
    (migId : String) : Operation → Except CompileErr Stmt
  | .CreateModel name fields =>
    let create_table := fields.foldl
      (fun ct field => db_impl.add_column ct
        (db_impl.create_column name field.name field.db_type field.annotations))
      (db_impl.create_table name)
    wrapErr .createTable migId (db_impl.build_create_table create_table)
  | .RenameModel old new =>
    wrapErr .renameTable migId
      (db_impl.build_alter_table
        (db_impl.alter_table old (.RenameTo new)))
  | .DeleteModel name =>
    wrapErr .dropTable migId
      (db_impl.build_drop_table (db_impl.drop_table name))
  | .CreateField model field =>
    wrapErr .addColumn migId
      (db_impl.build_alter_table
        (db_impl.alter_table model
          (.AddColumn (db_impl.create_column model field.name
            field.db_type field.annotations))))
  | .RenameField table_name old new =>
    wrapErr .renameFieldStmt migId
      (db_impl.build_alter_table
        (db_impl.alter_table table_name (.RenameColumnTo old new)))
  | .DeleteField model name =>
    wrapErr .dropColumn migId
      (db_impl.build_alter_table
        (db_impl.alter_table model (.DropColumn name)))

/-- The for loop of migration_to_sql (sql_builder.rs line 16): walks the
operations in list order, threading the transaction; each successful
statement is appended with add_statement, the first failure aborts. -/
def compileOperations (db_impl : DBImpl Col TB AB DT Txn Stmt Script)
    (migId : String) : List Operation → Txn → Except CompileErr Txn
  | [], transaction => .ok transaction
  | operation :: rest, transaction =>
    match compileOp db_impl migId operation with
    | .error e => .error e
    | .ok stmt =>
      compileOperations db_impl migId rest
        (db_impl.add_statement transaction stmt)

/-- Helper method to convert a migration to a transaction
(sql_builder.rs, migration_to_sql): starts a transaction, compiles every
operation into it, then finishes, wrapping a finish failure with the
migration id. -/
def migration_to_sql (db_impl : DBImpl Col TB AB DT Txn Stmt Script)
    (migration : Migration) : Except CompileErr Script :=
  match compileOperations db_impl migration.id migration.operations
      db_impl.start_transaction with
  | .error e => .error e
  | .ok transaction =>
    wrapErr .finishTransaction migration.id (db_impl.finish transaction)

/-- Symbolic column specification: records the arguments of the
create_column call that produced it. -/
structure SymCol where
  table : String
  column : String
  ty : DbType
  annots : List Annot
deriving DecidableEq, Repr

/-- Symbolic statement: records which backend call sequence built it. -/
inductive SymStmt where
  | createTable (name : String) (columns : List SymCol)
  | alterTable (table : String) (op : SQLAlterTableOperation SymCol)
  | dropTable (name : String)
deriving DecidableEq, Repr

/-- Free (symbolic) dialect: every build succeeds and records the call
that produced the value; a transaction is the list of its statements in
insertion order and finish returns that list as the script. -/
def symDB : DBImpl SymCol (String × List SymCol)
    (String × SQLAlterTableOperation SymCol) String
    (List SymStmt) SymStmt (List SymStmt) where
  start_transaction := []
  create_table name := (name, [])
  create_column table column ty annots := ⟨table, column, ty, annots⟩
  add_column tb col := (tb.1, tb.2 ++ [col])
  build_create_table tb := .ok (.createTable tb.1 tb.2)
  alter_table table op := (table, op)
  build_alter_table ab := .ok (.alterTable ab.1 ab.2)
  drop_table name := name
  build_drop_table name := .ok (.dropTable name)
  add_statement txn stmt := txn ++ [stmt]
  finish txn := .ok txn

/-- The column the spec's compilation table says create_column receives
for a field of a model (section 4.3 of the design). -/
def specColumnOf (model : String) (f : Field) : SymCol :=
  ⟨model, f.name, f.db_type, f.annotations⟩

/-- The statement the spec's compilation table (section 4.3) assigns to
each operation, stated over the free dialect. This definition follows the
spec's table, independently of compileOp, so that the compiler can be
compared against it. -/
def specStatementOf : Operation → SymStmt
  | .CreateModel name fields =>
    .createTable name (fields.map (specColumnOf name))
  | .RenameModel old new => .alterTable old (.RenameTo new)
  | .DeleteModel name => .dropTable name
  | .CreateField model field =>
    .alterTable model (.AddColumn (specColumnOf model field))
  | .RenameField table_name old new =>
    .alterTable table_name (.RenameColumnTo old new)
  | .DeleteField model name => .alterTable model (.DropColumn name)

/-- Per-operation compilation relation, transcribed from the table in
section 4.3 of the design (CreateModel compiles as create_table plus one
add_column per field in listed order plus build; RenameModel as
alter_table RenameTo; DeleteModel as drop_table; CreateField as
alter_table AddColumn of a created column; RenameField as alter_table
RenameColumnTo; DeleteField as alter_table DropColumn). Written from the
spec's words so the compiler can be checked against it. -/
inductive OpCompiledAs (db_impl : DBImpl Col TB AB DT Txn Stmt Script) :
    Operation → Stmt → Prop where
  | createModel {name : String} {fields : List Field} {s : Stmt} :
      db_impl.build_create_table
        (fields.foldl
          (fun ct field => db_impl.add_column ct
            (db_impl.create_column name field.name field.db_type
              field.annotations))
          (db_impl.create_table name)) = .ok s →
      OpCompiledAs db_impl (.CreateModel name fields) s
  | renameModel {old new : String} {s : Stmt} :
      db_impl.build_alter_table
        (db_impl.alter_table old (.RenameTo new)) = .ok s →
      OpCompiledAs db_impl (.RenameModel old new) s
  | deleteModel {name : String} {s : Stmt} :
      db_impl.build_drop_table (db_impl.drop_table name) = .ok s →
      OpCompiledAs db_impl (.DeleteModel name) s
  | createField {model : String} {field : Field} {s : Stmt} :
      db_impl.build_alter_table
        (db_impl.alter_table model
          (.AddColumn (db_impl.create_column model field.name
            field.db_type field.annotations))) = .ok s →
      OpCompiledAs db_impl (.CreateField model field) s
  | renameField {table_name old new : String} {s : Stmt} :
      db_impl.build_alter_table
        (db_impl.alter_table table_name (.RenameColumnTo old new)) = .ok s →
      OpCompiledAs db_impl (.RenameField table_name old new) s
  | deleteField {model name : String} {s : Stmt} :
      db_impl.build_alter_table
        (db_impl.alter_table model (.DropColumn name)) = .ok s →
      OpCompiledAs db_impl (.DeleteField model name) s

/-- Example migration used to instantiate theorems on concrete data. -/
def mig0 : Migration :=
  { hash := "h", initial := true, id := "0001_init", dependency := "",
    replaces := [],
    operations := [
      .CreateModel "user"
        [⟨"id", ⟨"int"⟩, [⟨"pk"⟩]⟩, ⟨"name", ⟨"text"⟩, []⟩],
      .RenameModel "user" "person"] }

/-- The script the free dialect produces for mig0. -/
def mig0script : List SymStmt :=
  [.createTable "user"
      [⟨"user", "id", ⟨"int"⟩, [⟨"pk"⟩]⟩, ⟨"user", "name", ⟨"text"⟩, []⟩],
   .alterTable "user" (.RenameTo "person")]

/-- A dialect like the free one except that building a drop-table
statement always fails: used to exercise the error paths. -/
def failDropDB : DBImpl SymCol (String × List SymCol)
    (String × SQLAlterTableOperation SymCol) String
    (List SymStmt) SymStmt (List SymStmt) :=
  { symDB with build_drop_table := fun _ => .error "unsupported" }

/-- A migration whose second operation is a DeleteModel, which
failDropDB cannot compile. -/
def migDrop : Migration :=
  { hash := "h2", initial := false, id := "0002_drop",
    dependency := "0001_init", replaces := [],
    operations := [.RenameModel "user" "person", .DeleteModel "user"] }

/-- The 1-based position of the first operation in the list that the
dialect fails to compile, if any. -/
def firstFailIdx (db_impl : DBImpl Col TB AB DT Txn Stmt Script)
    (migId : String) : List Operation → Option Nat
  | [] => none
  | op :: rest =>
    match compileOp db_impl migId op with
    | .error _ => some 1
    | .ok _ => (firstFailIdx db_impl migId rest).map (fun i => i + 1)

/-- The property the spec claims of compile errors, in its words: both
the migration id and the 1-based position of the failing operation can
be read off the returned error. Stated for the concrete dialect
failDropDB, an instance of the general claim. -/
def errorCarriesIdAndPosition : Prop :=
  ∃ getId : CompileErr → String, ∃ getPos : CompileErr → Nat,
    ∀ (m : Migration) (e : CompileErr) (i : Nat),
      migration_to_sql failDropDB m = .error e →
      firstFailIdx failDropDB m.id m.operations = some i →
      getId e = m.id ∧ getPos e = i

/-- A migration with the same id as migDrop whose single operation is
the DeleteModel that failDropDB rejects: it fails at position 1 with the
same error value migDrop produces failing at position 2. -/
def migDropFirst : Migration :=
  { hash := "h2b", initial := false, id := "0002_drop",
    dependency := "0001_init", replaces := [],
    operations := [.DeleteModel "user"] }

/-- Generic value of a serialized document (the TOML/JSON-class tree the
serde derive reads and writes): strings, booleans, lists and keyed
tables. -/
inductive Value where
  | vStr (s : String)
  | vBool (b : Bool)
  | vList (items : List Value)
  | vDoc (entries : List (String × Value))

/-- First value bound to a key in a document table. -/
def lookupKey (doc : List (String × Value)) (key : String) : Option Value :=
  match doc.find? (fun entry => entry.1 == key) with
  | none => none
  | some entry => some entry.2

/-- Required field access: a missing key is a deserialization error. -/
def getKey (doc : List (String × Value)) (key : String) :
    Except String Value :=
  match lookupKey doc key with
  | some v => .ok v
  | none => .error ("missing field " ++ key)

/-- Read a value as a string. -/
def Value.asStr : Value → Except String String
  | .vStr s => .ok s
  | _ => .error "expected a string"

/-- Read a value as a boolean. -/
def Value.asBool : Value → Except String Bool
  | .vBool b => .ok b
  | _ => .error "expected a boolean"

/-- Read a value as a list. -/
def Value.asList : Value → Except String (List Value)
  | .vList items => .ok items
  | _ => .error "expected a list"

/-- Read a value as a keyed table. -/
def Value.asDoc : Value → Except String (List (String × Value))
  | .vDoc entries => .ok entries
  | _ => .error "expected a table"

/-- Modelled from the spec: serialization of a column annotation. The
Annot type lives in the external rorm_sql crate, whose serialized form
is not part of this repository; it is opaque data here. -/
def serializeAnnot (a : Annot) : Value := .vStr a.code

/-- Modelled from the spec: deserialization of a column annotation. -/
def deserializeAnnot (v : Value) : Except String Annot := do
  let code ← v.asStr
  pure ⟨code⟩

/-- Modelled from the spec: serialization of a Field per section 3 of
the design (name, semantic database type, annotations); the Field type
and its serde derive live in the external rorm_sql crate. -/
def serializeField (f : Field) : Value :=
  .vDoc [("Name", .vStr f.name), ("Type", .vStr f.db_type.code),
    ("Annotations", .vList (f.annotations.map serializeAnnot))]

/-- Modelled from the spec: deserialization of a Field. -/
def deserializeField (v : Value) : Except String Field := do
  let doc ← v.asDoc
  let name ← (← getKey doc "Name").asStr
  let ty ← (← getKey doc "Type").asStr
  let annotVals ← (← getKey doc "Annotations").asList
  let annots ← annotVals.mapM deserializeAnnot
  pure ⟨name, ⟨ty⟩, annots⟩

/-- Serialization of an Operation following the serde attributes on the
enum in declaration.rs: internally tagged with the Type key holding the
variant name, fields renamed to PascalCase. -/
def serializeOperation : Operation → Value
  | .CreateModel name fields =>
    .vDoc [("Type", .vStr "CreateModel"), ("Name", .vStr name),
      ("Fields", .vList (fields.map serializeField))]
  | .RenameModel old new =>
    .vDoc [("Type", .vStr "RenameModel"), ("Old", .vStr old),
      ("New", .vStr new)]
  | .DeleteModel name =>
    .vDoc [("Type", .vStr "DeleteModel"), ("Name", .vStr name)]
  | .CreateField model field =>
    .vDoc [("Type", .vStr "CreateField"), ("Model", .vStr model),
      ("Field", serializeField field)]
  | .RenameField table_name old new =>
    .vDoc [("Type", .vStr "RenameField"), ("TableName", .vStr table_name),
      ("Old", .vStr old), ("New", .vStr new)]
  | .DeleteField model name =>
    .vDoc [("Type", .vStr "DeleteField"), ("Model", .vStr model),
      ("Name", .vStr name)]

/-- Deserialization of an Operation following the serde attributes on
the enum in declaration.rs: the Type discriminator selects among the six
variant names, anything else is rejected. -/
def deserializeOperation (v : Value) : Except String Operation := do
  let doc ← v.asDoc
  let tag ← (← getKey doc "Type").asStr
  if tag = "CreateModel" then
    let name ← (← getKey doc "Name").asStr
    let fieldVals ← (← getKey doc "Fields").asList
    let fields ← fieldVals.mapM deserializeField
    pure (.CreateModel name fields)
  else if tag = "RenameModel" then
    let old ← (← getKey doc "Old").asStr
    let new ← (← getKey doc "New").asStr
    pure (.RenameModel old new)
  else if tag = "DeleteModel" then
    let name ← (← getKey doc "Name").asStr
    pure (.DeleteModel name)
  else if tag = "CreateField" then
    let model ← (← getKey doc "Model").asStr
    let field ← deserializeField (← getKey doc "Field")
    pure (.CreateField model field)
  else if tag = "RenameField" then
    let table_name ← (← getKey doc "TableName").asStr
    let old ← (← getKey doc "Old").asStr
    let new ← (← getKey doc "New").asStr
    pure (.RenameField table_name old new)
  else if tag = "DeleteField" then
    let model ← (← getKey doc "Model").asStr
    let name ← (← getKey doc "Name").asStr
    pure (.DeleteField model name)
  else .error ("unknown operation tag " ++ tag)

/-- Serialization of a Migration following the serde attributes on the
struct in declaration.rs: fields renamed to PascalCase, and the id field
skipped entirely. -/
def serializeMigration (m : Migration) : List (String × Value) :=
  [("Hash", .vStr m.hash), ("Initial", .vBool m.initial),
   ("Dependency", .vStr m.dependency),
   ("Replaces", .vList (m.replaces.map Value.vStr)),
   ("Operations", .vList (m.operations.map serializeOperation))]

/-- Deserialization of a Migration following the serde attributes on
the struct in declaration.rs: the five serialized fields are read from
the document; the id field is skipped, so it takes the default empty
string whatever the document holds. -/
def deserializeMigration (doc : List (String × Value)) :
    Except String Migration := do
  let hash ← (← getKey doc "Hash").asStr
  let initial ← (← getKey doc "Initial").asBool
  let dependency ← (← getKey doc "Dependency").asStr
  let replacesVals ← (← getKey doc "Replaces").asList
  let replaces ← replacesVals.mapM Value.asStr
  let opVals ← (← getKey doc "Operations").asList
  let operations ← opVals.mapM deserializeOperation
  pure ⟨hash, initial, "", dependency, replaces, operations⟩

/-- Modelled from the spec: the migration file loading step of the
migrate module (migrate/mod.rs and utils.rs are declared in main.rs but
their code is not in src). Per section 6 of the design, the Dependency
string of a migration document may be empty only when Initial is true,
so loading validates this after deserialization. -/
def loadMigration (doc : List (String × Value)) : Except String Migration :=
  match deserializeMigration doc with
  | .error e => .error e
  | .ok m =>
    if m.initial = false ∧ m.dependency = "" then
      .error "non-initial migration with empty dependency"
    else .ok m

lemma wrapErr_ok_iff {α : Type} (k : CtxKind) (migId : String)
    (x : Except String α) (a : α) :
    wrapErr k migId x = .ok a ↔ x = .ok a := by
  cases x <;> simp [wrapErr]

lemma wrapErr_error_iff {α : Type} (k : CtxKind) (migId : String)
    (x : Except String α) (e : CompileErr) :
    wrapErr k migId x = .error e ↔
      ∃ cause, x = .error cause ∧ e = ⟨k, migId, cause⟩ := by
  cases x with
  | ok a => simp [wrapErr]
  | error c =>
    simp only [wrapErr]
    constructor
    · intro h
      exact ⟨c, rfl, (Except.error.injEq _ _ ▸ h).symm⟩
    · rintro ⟨cause, hc, he⟩
      cases hc
      rw [he]

lemma compileOp_ok_iff (db_impl : DBImpl Col TB AB DT Txn Stmt Script)
    (migId : String) (op : Operation) (s : Stmt) :
    compileOp db_impl migId op = .ok s ↔ OpCompiledAs db_impl op s := by
  constructor
  · intro h
    cases op <;>
      simp only [compileOp, wrapErr_ok_iff] at h
    · exact .createModel h
    · exact .renameModel h
    · exact .deleteModel h
    · exact .createField h
    · exact .renameField h
    · exact .deleteField h
  · intro h
    cases h <;> simp only [compileOp, wrapErr_ok_iff] <;> assumption

lemma compileOp_error_mid (db_impl : DBImpl Col TB AB DT Txn Stmt Script)
    (migId : String) (op : Operation) (e : CompileErr)
    (h : compileOp db_impl migId op = .error e) : e.migrationId = migId := by
  cases op <;>
    simp only [compileOp, wrapErr_error_iff] at h <;>
    · obtain ⟨cause, _, he⟩ := h
      rw [he]

lemma compileOperations_ok_iff
    (db_impl : DBImpl Col TB AB DT Txn Stmt Script) (migId : String)
    (ops : List Operation) (txn t : Txn) :
    compileOperations db_impl migId ops txn = .ok t ↔
      ∃ stmts : List Stmt,
        List.Forall₂ (fun op s => compileOp db_impl migId op = .ok s)
          ops stmts ∧
        t = stmts.foldl db_impl.add_statement txn := by
  induction ops generalizing txn with
  | nil =>
    simp only [compileOperations, List.forall₂_nil_left_iff]
    constructor
    · intro h
      cases h
      exact ⟨[], rfl, rfl⟩
    · rintro ⟨stmts, rfl, rfl⟩
      rfl
  | cons op rest ih =>
    cases hc : compileOp db_impl migId op with
    | error e =>
      simp only [compileOperations, hc, List.forall₂_cons_left_iff]
      constructor
      · intro h
        cases h
      · rintro ⟨stmts, ⟨s, stmts', hs, _, rfl⟩, _⟩
        cases hs
    | ok s =>
      simp only [compileOperations, hc, ih, List.forall₂_cons_left_iff]
      constructor
      · rintro ⟨stmts', hall, rfl⟩
        exact ⟨s :: stmts', ⟨s, stmts', rfl, hall, rfl⟩, rfl⟩
      · rintro ⟨stmts, ⟨s', stmts', hs', hall, rfl⟩, rfl⟩
        injection hs' with hss
        subst hss
        exact ⟨stmts', hall, rfl⟩

lemma compileOperations_error_mid
    (db_impl : DBImpl Col TB AB DT Txn Stmt Script) (migId : String)
    (ops : List Operation) (txn : Txn) (e : CompileErr)
    (h : compileOperations db_impl migId ops txn = .error e) :
    e.migrationId = migId := by
  induction ops generalizing txn with
  | nil => cases h
  | cons op rest ih =>
    rw [compileOperations] at h
    cases hc : compileOp db_impl migId op with
    | error e' =>
      rw [hc] at h
      cases h
      exact compileOp_error_mid db_impl migId op e hc
    | ok s =>
      rw [hc] at h
      exact ih _ h

lemma compileOperations_error_of_fail
    (db_impl : DBImpl Col TB AB DT Txn Stmt Script) (migId : String)
    (ops : List Operation) (op : Operation)
    (hmem : op ∈ ops) (hfail : ∃ e, compileOp db_impl migId op = .error e) :
    ∀ txn, ∃ e', compileOperations db_impl migId ops txn = .error e' := by
  induction ops with
  | nil => cases hmem
  | cons a rest ih =>
    intro txn
    cases hc : compileOp db_impl migId a with
    | error e => exact ⟨e, by rw [compileOperations, hc]⟩
    | ok s =>
      rcases List.mem_cons.mp hmem with rfl | hmem'
      · obtain ⟨e, he⟩ := hfail
        rw [hc] at he
        cases he
      · obtain ⟨e', he'⟩ := ih hmem' (db_impl.add_statement txn s)
        exact ⟨e', by rw [compileOperations, hc]; exact he'⟩

lemma migration_to_sql_ok_iff
    (db_impl : DBImpl Col TB AB DT Txn Stmt Script) (m : Migration)
    (script : Script) :
    migration_to_sql db_impl m = .ok script ↔
      ∃ txn, compileOperations db_impl m.id m.operations
          db_impl.start_transaction = .ok txn ∧
        db_impl.finish txn = .ok script := by
  rw [migration_to_sql]
  cases hc : compileOperations db_impl m.id m.operations
      db_impl.start_transaction with
  | error e =>
    simp only []
    constructor
    · intro h
      cases h
    · rintro ⟨txn, htxn, _⟩
      cases htxn
  | ok txn =>
    simp only [wrapErr_ok_iff]
    constructor
    · intro h
      exact ⟨txn, rfl, h⟩
    · rintro ⟨txn', htxn, hfin⟩
      injection htxn with htt
      subst htt
      exact hfin

lemma symDB_foldl_add_column (name : String) (fields : List Field)
    (start : String × List SymCol) :
    fields.foldl
      (fun ct field => symDB.add_column ct
        (symDB.create_column name field.name field.db_type
          field.annotations))
      start
      = (start.1, start.2 ++ fields.map (specColumnOf name)) := by
  induction fields generalizing start with
  | nil => simp
  | cons f fs ih =>
    rw [List.foldl_cons, ih]
    simp [symDB, specColumnOf]

lemma compileOp_symDB (migId : String) (op : Operation) :
    compileOp symDB migId op = .ok (specStatementOf op) := by
  cases op with
  | CreateModel name fields =>
    rw [compileOp, wrapErr_ok_iff, symDB_foldl_add_column]
    rfl
  | RenameModel old new => rfl
  | DeleteModel name => rfl
  | CreateField model field => rfl
  | RenameField table_name old new => rfl
  | DeleteField model name => rfl

lemma compileOperations_symDB (migId : String) (ops : List Operation)
    (txn : List SymStmt) :
    compileOperations symDB migId ops txn
      = .ok (txn ++ ops.map specStatementOf) := by
  induction ops generalizing txn with
  | nil => simp [compileOperations]
  | cons op rest ih =>
    rw [compileOperations, compileOp_symDB]
    show compileOperations symDB migId rest
        (symDB.add_statement txn (specStatementOf op)) = _
    rw [ih]
    show Except.ok ((txn ++ [specStatementOf op]) ++ _) = _
    simp

lemma migration_to_sql_symDB (m : Migration) :
    migration_to_sql symDB m = .ok (m.operations.map specStatementOf) := by
  rw [migration_to_sql, compileOperations_symDB]
  rfl

lemma compileOp_ok_id_irrel (db_impl : DBImpl Col TB AB DT Txn Stmt Script)
    (id₁ id₂ : String) (op : Operation) (s : Stmt)
    (h : compileOp db_impl id₁ op = .ok s) : compileOp db_impl id₂ op = .ok s := by
  rw [compileOp_ok_iff] at h ⊢
  exact h

lemma compileOperations_ok_id_irrel
    (db_impl : DBImpl Col TB AB DT Txn Stmt Script) (id₁ id₂ : String)
    (ops : List Operation) (txn t : Txn)
    (h : compileOperations db_impl id₁ ops txn = .ok t) :
    compileOperations db_impl id₂ ops txn = .ok t := by
  rw [compileOperations_ok_iff] at h ⊢
  obtain ⟨stmts, hall, ht⟩ := h
  exact ⟨stmts,
    hall.imp (fun op s hop => compileOp_ok_id_irrel db_impl id₁ id₂ op s hop),
    ht⟩

lemma except_bind_ok {α β : Type} (x : Except String α)
    (f : α → Except String β) (b : β) :
    (x >>= f) = Except.ok b ↔ ∃ a, x = Except.ok a ∧ f a = Except.ok b := by
  cases x with
  | ok a =>
    constructor
    · intro h
      exact ⟨a, rfl, h⟩
    · rintro ⟨a', ha', hf⟩
      injection ha' with ha'
      subst ha'
      exact hf
  | error e =>
    constructor
    · intro h
      cases h
    · rintro ⟨a', ha', _⟩
      cases ha'

lemma except_pure_ok {α : Type} (a b : α) :
    (pure a : Except String α) = Except.ok b ↔ a = b := by
  constructor
  · intro h
    injection h with h
  · intro h
    rw [h]
    rfl

/-- C1: for every migration and every dialect, migration_to_sql walks the
operations list in order and adds exactly one statement to the single
transaction per operation, each statement built by the fixed call
sequence of the mapping table; a successful Script is the finish of the
transaction holding all those statements, so none is missing. -/
theorem migration_to_sql_one_statement_per_operation
    (db_impl : DBImpl Col TB AB DT Txn Stmt Script) (m : Migration)
    (script : Script) (h : migration_to_sql db_impl m = .ok script) :
    ∃ stmts : List Stmt,
      stmts.length = m.operations.length ∧
      List.Forall₂ (OpCompiledAs db_impl) m.operations stmts ∧
      db_impl.finish
        (stmts.foldl db_impl.add_statement db_impl.start_transaction)
        = .ok script := by
  rw [migration_to_sql_ok_iff] at h
  obtain ⟨txn, htxn, hfin⟩ := h
  rw [compileOperations_ok_iff] at htxn
  obtain ⟨stmts, hall, rfl⟩ := htxn
  refine ⟨stmts, (List.Forall₂.length_eq hall).symm, ?_, hfin⟩
  exact hall.imp (fun op s hop => (compileOp_ok_iff db_impl m.id op s).mp hop)

/-- C1 witness: instantiating the theorem on the free dialect and the
concrete migration mig0. -/
theorem migration_to_sql_one_statement_per_operation_witness :
    ∃ stmts : List SymStmt,
      stmts.length = mig0.operations.length ∧
      List.Forall₂ (OpCompiledAs symDB) mig0.operations stmts ∧
      symDB.finish
        (stmts.foldl symDB.add_statement symDB.start_transaction)
        = .ok mig0script :=
  migration_to_sql_one_statement_per_operation symDB mig0 mig0script rfl

/-- C2: a migration whose operations list is a single CreateModel with N
fields compiles, over the free dialect, to a transaction holding exactly
one create-table statement whose column list comes from exactly N
add_column calls, one per field, in the original field order. -/
theorem create_model_single_statement (hash : String) (initial : Bool)
    (id : String) (dependency : String) (replaces : List String)
    (name : String) (fields : List Field) :
    migration_to_sql symDB
      { hash := hash, initial := initial, id := id,
        dependency := dependency, replaces := replaces,
        operations := [.CreateModel name fields] }
      = .ok [.createTable name (fields.map (specColumnOf name))] ∧
    (fields.map (specColumnOf name)).length = fields.length := by
  refine ⟨?_, fields.length_map (specColumnOf name)⟩
  rw [migration_to_sql_symDB]
  rfl

/-- C3: if building any operation's statement fails, or the final finish
fails, migration_to_sql returns an error and never an ok Script: the
partially built transaction is discarded, not returned. -/
theorem migration_to_sql_no_partial_script
    (db_impl : DBImpl Col TB AB DT Txn Stmt Script) (m : Migration)
    (h : (∃ op ∈ m.operations, ∃ e, compileOp db_impl m.id op = .error e) ∨
      (∃ txn e, compileOperations db_impl m.id m.operations
          db_impl.start_transaction = .ok txn ∧
        db_impl.finish txn = .error e)) :
    (∃ e, migration_to_sql db_impl m = .error e) ∧
    ∀ script, migration_to_sql db_impl m ≠ .ok script := by
  have herr : ∃ e, migration_to_sql db_impl m = .error e := by
    rcases h with ⟨op, hmem, hfail⟩ | ⟨txn, e, htxn, hfin⟩
    · obtain ⟨e', he'⟩ := compileOperations_error_of_fail db_impl m.id
        m.operations op hmem hfail db_impl.start_transaction
      exact ⟨e', by rw [migration_to_sql, he']⟩
    · refine ⟨⟨.finishTransaction, m.id, e⟩, ?_⟩
      rw [migration_to_sql, htxn]
      show wrapErr CtxKind.finishTransaction m.id (db_impl.finish txn) = _
      rw [hfin]
      rfl
  refine ⟨herr, fun script hok => ?_⟩
  obtain ⟨e, he⟩ := herr
  rw [he] at hok
  cases hok

/-- C3 witness: a dialect that rejects drop-table builds, applied to a
migration containing a DeleteModel operation. -/
theorem migration_to_sql_no_partial_script_witness :
    (∃ e, migration_to_sql failDropDB migDrop = .error e) ∧
    ∀ script, migration_to_sql failDropDB migDrop ≠ .ok script :=
  migration_to_sql_no_partial_script failDropDB migDrop
    (Or.inl ⟨.DeleteModel "user", by decide, ⟨.dropTable, "0002_drop",
      "unsupported"⟩, rfl⟩)

/-- C5: compilation is deterministic: the same dialect and migration give
the same result, and two successful Scripts for the same inputs are
structurally identical. -/
theorem migration_to_sql_deterministic
    (db_impl : DBImpl Col TB AB DT Txn Stmt Script) (m : Migration) :
    migration_to_sql db_impl m = migration_to_sql db_impl m ∧
    ∀ script₁ script₂, migration_to_sql db_impl m = .ok script₁ →
      migration_to_sql db_impl m = .ok script₂ → script₁ = script₂ := by
  refine ⟨rfl, fun script₁ script₂ h₁ h₂ => ?_⟩
  rw [h₁] at h₂
  exact Except.ok.inj h₂

/-- C5 witness: the free dialect on mig0. -/
theorem migration_to_sql_deterministic_witness :
    migration_to_sql symDB mig0 = migration_to_sql symDB mig0 ∧
    mig0script = mig0script :=
  ⟨(migration_to_sql_deterministic symDB mig0).1,
   (migration_to_sql_deterministic symDB mig0).2 mig0script mig0script
     rfl rfl⟩

/-- C6: the Operation type is closed with exactly the six constructors,
and the compiler's match over it is total: every operation value falls
into one of the six handled shapes, and compileOp always returns a
defined ok-or-error result, never reaching an unhandled case. -/
theorem operation_taxonomy_closed :
    (∀ op : Operation,
      (∃ name fields, op = Operation.CreateModel name fields) ∨
      (∃ old new, op = Operation.RenameModel old new) ∨
      (∃ name, op = Operation.DeleteModel name) ∨
      (∃ model field, op = Operation.CreateField model field) ∨
      (∃ table_name old new, op = Operation.RenameField table_name old new) ∨
      (∃ model name, op = Operation.DeleteField model name)) ∧
    (∀ (Col TB AB DT Txn Stmt Script : Type)
        (db_impl : DBImpl Col TB AB DT Txn Stmt Script)
        (migId : String) (op : Operation),
      (∃ s, compileOp db_impl migId op = .ok s) ∨
      (∃ e, compileOp db_impl migId op = .error e)) := by
  constructor
  · intro op
    cases op with
    | CreateModel name fields => exact Or.inl ⟨name, fields, rfl⟩
    | RenameModel old new => exact Or.inr (Or.inl ⟨old, new, rfl⟩)
    | DeleteModel name => exact Or.inr (Or.inr (Or.inl ⟨name, rfl⟩))
    | CreateField model field =>
      exact Or.inr (Or.inr (Or.inr (Or.inl ⟨model, field, rfl⟩)))
    | RenameField table_name old new =>
      exact Or.inr (Or.inr (Or.inr (Or.inr
        (Or.inl ⟨table_name, old, new, rfl⟩))))
    | DeleteField model name =>
      exact Or.inr (Or.inr (Or.inr (Or.inr (Or.inr ⟨model, name, rfl⟩))))
  · intro Col TB AB DT Txn Stmt Script db_impl migId op
    cases h : compileOp db_impl migId op with
    | ok s => exact Or.inl ⟨s, rfl⟩
    | error e => exact Or.inr ⟨e, rfl⟩

/-- C9: the successful output depends only on the dialect and the
operations list: two migrations with equal operations compile to the
same ok Script, whatever their hash, initial, dependency, replaces and
id fields are. -/
theorem migration_to_sql_depends_only_on_operations
    (db_impl : DBImpl Col TB AB DT Txn Stmt Script) (m₁ m₂ : Migration)
    (script : Script) (hops : m₁.operations = m₂.operations)
    (h : migration_to_sql db_impl m₁ = .ok script) :
    migration_to_sql db_impl m₂ = .ok script := by
  rw [migration_to_sql_ok_iff] at h ⊢
  obtain ⟨txn, htxn, hfin⟩ := h
  rw [hops] at htxn
  exact ⟨txn, compileOperations_ok_id_irrel db_impl m₁.id m₂.id _ _ _ htxn,
    hfin⟩

/-- C9 witness: mig0 and a migration with the same operations but
different hash, initial, id, dependency and replaces. -/
theorem migration_to_sql_depends_only_on_operations_witness :
    migration_to_sql symDB
      { hash := "other", initial := false, id := "0009_copy",
        dependency := "0008_prev", replaces := ["0007_old"],
        operations := mig0.operations }
      = .ok mig0script :=
  migration_to_sql_depends_only_on_operations symDB mig0
    { hash := "other", initial := false, id := "0009_copy",
      dependency := "0008_prev", replaces := ["0007_old"],
      operations := mig0.operations }
    mig0script rfl rfl

/-- C10: a migration with no operations compiles to exactly the result
of finishing a freshly started transaction with zero statements added;
in particular it succeeds whenever finish succeeds on the fresh
transaction. -/
theorem migration_to_sql_empty_operations
    (db_impl : DBImpl Col TB AB DT Txn Stmt Script) (m : Migration)
    (h : m.operations = []) :
    migration_to_sql db_impl m
      = wrapErr .finishTransaction m.id
          (db_impl.finish db_impl.start_transaction) ∧
    ∀ script, db_impl.finish db_impl.start_transaction = .ok script →
      migration_to_sql db_impl m = .ok script := by
  have heq : migration_to_sql db_impl m
      = wrapErr .finishTransaction m.id
          (db_impl.finish db_impl.start_transaction) := by
    rw [migration_to_sql, h]
    rfl
  refine ⟨heq, fun script hfin => ?_⟩
  rw [heq, hfin]
  rfl

/-- C10 witness: the empty migration over the free dialect compiles to
the empty script. -/
theorem migration_to_sql_empty_operations_witness :
    migration_to_sql symDB
      { hash := "h0", initial := true, id := "0000_empty",
        dependency := "", replaces := [], operations := [] }
      = .ok [] :=
  (migration_to_sql_empty_operations symDB
    { hash := "h0", initial := true, id := "0000_empty",
      dependency := "", replaces := [], operations := [] } rfl).2 [] rfl

/-- C4 counterexample: the error value does not determine the failing
operation's position: two migrations with the same id produce the very
same error while failing at positions 1 and 2 respectively, so no
reading of the error yields the position. -/
theorem compile_error_position_counterexample :
    ¬ errorCarriesIdAndPosition := by
  rintro ⟨getId, getPos, h⟩
  have h₁ := h migDropFirst
    ⟨.dropTable, "0002_drop", "unsupported"⟩ 1 rfl rfl
  have h₂ := h migDrop
    ⟨.dropTable, "0002_drop", "unsupported"⟩ 2 rfl rfl
  have hp₁ := h₁.2
  have hp₂ := h₂.2
  omega

/-- C4 (amended): the error returned by migration_to_sql carries the
migration id — the with_context message wraps exactly the id of the
migration being compiled — but not the position of the failing
operation. -/
theorem migration_to_sql_error_carries_id
    (db_impl : DBImpl Col TB AB DT Txn Stmt Script) (m : Migration)
    (e : CompileErr) (h : migration_to_sql db_impl m = .error e) :
    e.migrationId = m.id := by
  rw [migration_to_sql] at h
  cases hc : compileOperations db_impl m.id m.operations
      db_impl.start_transaction with
  | error e' =>
    rw [hc] at h
    injection h with he
    subst he
    exact compileOperations_error_mid db_impl m.id m.operations
      db_impl.start_transaction _ hc
  | ok txn =>
    rw [hc] at h
    have h' : wrapErr CtxKind.finishTransaction m.id
        (db_impl.finish txn) = .error e := h
    rw [wrapErr_error_iff] at h'
    obtain ⟨cause, _, he⟩ := h'
    rw [he]

/-- C4 amended witness: the error failDropDB produces on migDrop names
the id of migDrop. -/
theorem migration_to_sql_error_carries_id_witness :
    (⟨CtxKind.dropTable, "0002_drop", "unsupported"⟩ :
      CompileErr).migrationId = migDrop.id :=
  migration_to_sql_error_carries_id failDropDB migDrop
    ⟨.dropTable, "0002_drop", "unsupported"⟩ rfl

/-- C7: the id of a Migration is never read from nor written to the
serialized document: the serialized document's keys are exactly the five
serialized fields (no Id key exists), and any successful deserialization
yields a Migration whose id is the default empty string, whatever the
document holds. -/
theorem migration_id_not_serialized :
    (∀ m : Migration, (serializeMigration m).map Prod.fst
        = ["Hash", "Initial", "Dependency", "Replaces", "Operations"]) ∧
    (∀ m : Migration, lookupKey (serializeMigration m) "Id" = none) ∧
    (∀ (doc : List (String × Value)) (m : Migration),
      deserializeMigration doc = .ok m → m.id = "") := by
  refine ⟨fun m => rfl, fun m => rfl, fun doc m h => ?_⟩
  simp only [deserializeMigration, except_bind_ok, except_pure_ok] at h
  obtain ⟨vH, hvH, hash, hhash, vI, hvI, initial, hinit, vD, hvD,
    dependency, hdep, vR, hvR, replacesVals, hrv, replaces, hreps,
    vO, hvO, opVals, hov, operations, hops, hm⟩ := h
  rw [← hm]

/-- C7 witness: a concrete round trip whose document carried no id. -/
theorem migration_id_not_serialized_witness :
    (⟨"h0", true, "", "", [], []⟩ : Migration).id = "" :=
  migration_id_not_serialized.2.2
    (serializeMigration ⟨"h0", true, "0005_named", "", [], []⟩)
    ⟨"h0", true, "", "", [], []⟩ (by rfl)

/-- C8: a document with Initial false and an empty Dependency string is
rejected by migration loading: it never produces a Migration value. -/
theorem load_rejects_noninitial_empty_dependency
    (doc : List (String × Value))
    (hInit : lookupKey doc "Initial" = some (Value.vBool false))
    (hDep : lookupKey doc "Dependency" = some (Value.vStr "")) :
    ∀ m : Migration, loadMigration doc ≠ .ok m := by
  intro m hok
  rw [loadMigration] at hok
  cases hdes : deserializeMigration doc with
  | error e =>
    rw [hdes] at hok
    cases hok
  | ok m₀ =>
    rw [hdes] at hok
    have hok' : (if m₀.initial = false ∧ m₀.dependency = "" then
        (Except.error "non-initial migration with empty dependency" :
          Except String Migration)
      else Except.ok m₀) = Except.ok m := hok
    have hkeyI : getKey doc "Initial" = .ok (Value.vBool false) := by
      rw [getKey, hInit]
    have hkeyD : getKey doc "Dependency" = .ok (Value.vStr "") := by
      rw [getKey, hDep]
    simp only [deserializeMigration, except_bind_ok, except_pure_ok]
      at hdes
    obtain ⟨vH, hvH, hash, hhash, vI, hvI, initial, hinit, vD, hvD,
      dependency, hdep, vR, hvR, replacesVals, hrv, replaces, hreps,
      vO, hvO, opVals, hov, operations, hops, hm⟩ := hdes
    rw [hkeyI] at hvI
    injection hvI with hvI
    subst hvI
    simp only [Value.asBool] at hinit
    injection hinit with hinit
    subst hinit
    rw [hkeyD] at hvD
    injection hvD with hvD
    subst hvD
    simp only [Value.asStr] at hdep
    injection hdep with hdep
    subst hdep
    rw [if_pos ⟨by rw [← hm], by rw [← hm]⟩] at hok'
    cases hok'

/-- C8 witness: a concrete document with Initial false and empty
Dependency is not loaded as the corresponding Migration. -/
theorem load_rejects_noninitial_empty_dependency_witness :
    loadMigration
      [("Hash", .vStr "h9"), ("Initial", .vBool false),
       ("Dependency", .vStr ""), ("Replaces", .vList []),
       ("Operations", .vList [])]
      ≠ .ok ⟨"h9", false, "", "", [], []⟩ :=
  load_rejects_noninitial_empty_dependency
    [("Hash", .vStr "h9"), ("Initial", .vBool false),
     ("Dependency", .vStr ""), ("Replaces", .vList []),
     ("Operations", .vList [])]
    rfl rfl ⟨"h9", false, "", "", [], []⟩

end Drorm
